import Mathlib

/-
Verification of the epoch-store core of the cardano-explorer-app
repository: the EpochsStore class (range fetch handlers, the two polling
reactions, the computed transformers) and the shrinkAddress helper.

The embedding is a shallow one. JavaScript objects that are mutated in
place (the raw epoch records returned by the query gateway) live in an
explicit heap indexed by references, so that the in-place patch performed
by syncLatestEpochWithLatestBlockDate and the aliasing between the stored
raw slots and the query result snapshot are represented faithfully.
JavaScript arithmetic on possibly-undefined numbers is modelled by a small
value type with NaN and undefined.
-/

namespace EpochsStore

/-- A JavaScript numeric value as it appears in the store's range
arithmetic: a proper (integer) number, NaN, or undefined. The TypeScript
type of currentEpoch is number or undefined. -/
inductive JSVal where
  | num (n : Int)
  | nan
  | undefined
deriving DecidableEq, Repr

/-- JavaScript subtraction of an integer literal from a value: any
non-number operand coerces to NaN, and NaN propagates. -/
def JSVal.sub (a : JSVal) (b : Int) : JSVal :=
  match a with
  | .num n => .num (n - b)
  | _ => .nan

/-- JavaScript Math.max(0, a): a non-number argument coerces to NaN and
the result is then NaN; otherwise the usual maximum. -/
def mathMax0 (a : JSVal) : JSVal :=
  match a with
  | .num n => .num (max 0 n)
  | _ => .nan

/-- The value read for currentEpoch (TypeScript type number or
undefined): an absent value is the JavaScript undefined. -/
def JSVal.ofOption : Option Int → JSVal
  | some n => .num n
  | none => .undefined

/-- lodash isNumber applied to currentEpoch: true exactly when the value
is a number (not undefined). -/
def isNumberJS : Option Int → Bool
  | some _ => true
  | none => false

/-- A raw epoch record as returned by the query gateway
(EpochOverviewFragment); we keep the fields the store logic reads or
patches: the epoch identifier and the last-block-time field. -/
structure EpochRecord where
  epochNumber : Int
  lastBlockTime : Int
deriving DecidableEq, Repr

/-- An object reference. Raw epoch records are JavaScript objects mutated
in place by the sync reaction, so epoch sequences hold references into an
explicit heap rather than values. -/
abbrev Ref := Nat

/-- The epochs field of a GetEpochsInRangeQuery result: an ordered
sequence whose members may be null. -/
abbrev RawEpochs := List (Option Ref)

/-- The payload of a successful gateway execution. -/
structure GetEpochsInRangeQuery where
  epochs : RawEpochs
deriving DecidableEq, Repr

/-- Modelled from the spec: the GraphQLRequest machinery behind
epochsApi.getEpochsInRangeQuery is not among the provided sources; per the
spec the query object carries a result snapshot and the observable flags
hasBeenExecutedAtLeastOnce, isExecuting and isExecutingTheFirstTime. -/
structure QueryState where
  result : Option GetEpochsInRangeQuery
  hasBeenExecutedAtLeastOnce : Bool
  isExecuting : Bool
  isExecutingTheFirstTime : Bool
deriving DecidableEq, Repr

/-- The observable fields owned by the EpochsStore itself. -/
structure StoreState where
  browsedEpochsRawData : RawEpochs
  latestEpochsRawData : RawEpochs
  lastFetchedAtBlockHeight : Int
deriving DecidableEq, Repr

/-- The field initializers of the store: both raw slots start empty and
lastFetchedAtBlockHeight starts at 0. -/
def initialStoreState : StoreState :=
  { browsedEpochsRawData := []
    latestEpochsRawData := []
    lastFetchedAtBlockHeight := 0 }

/-- The network-info feature dependency: observable block height, current
epoch (possibly undefined) and fetching flag. -/
structure NetworkInfoStore where
  blockHeight : Int
  currentEpoch : Option Int
  isFetching : Bool
deriving DecidableEq, Repr

/-- A block as exposed by the blocks feature dependency; the sync
reaction reads only its createdAt timestamp. -/
structure Block where
  createdAt : Int
deriving DecidableEq, Repr

/-- The blocks feature dependency: the observable list of latest blocks. -/
structure BlocksStore where
  latestBlocks : List Block
deriving DecidableEq, Repr

/-- The full mutable world the store operates on: the heap of epoch
record objects, the store's own observables, and the query object state. -/
structure World where
  heap : Ref → EpochRecord
  store : StoreState
  query : QueryState

/-- The variables of a getEpochsInRangeQuery execution. -/
structure QueryVars where
  lower : JSVal
  upper : JSVal
deriving DecidableEq, Repr

/-- The external query gateway: a response (possibly null) for each
choice of variables. The records a response refers to are taken to be
already present in the heap, which the gateway does not modify. -/
abbrev Gateway := QueryVars → Option GetEpochsInRangeQuery

/-- Modelled from the spec: executing getEpochsInRangeQuery (whose
implementation is not among the provided sources) records the response as
the result snapshot, marks the query as executed at least once, and
leaves it no longer executing. -/
def executeQuery (gw : Gateway) (vars : QueryVars) (w : World) :
    World × Option GetEpochsInRangeQuery :=
  let resp := gw vars
  ({ w with
      query :=
        { result := resp
          hasBeenExecutedAtLeastOnce := true
          isExecuting := false
          isExecutingTheFirstTime := false } },
    resp)

/-- Private helper fetchEpochsInRange: forwards its params to
getEpochsInRangeQuery.execute and returns the result. -/
def fetchEpochsInRange (gw : Gateway) (params : QueryVars) (w : World) :
    World × Option GetEpochsInRangeQuery :=
  executeQuery gw params w

/-- Action handler fetchLatestEpochs: upper is currentEpoch as read from
the network-info store, lower is Math.max(0, upper - 4); executes the
query and, if the result is non-null, replaces latestEpochsRawData with
result.epochs. Returns the updated world and the variables sent to the
gateway. -/
def fetchLatestEpochs (gw : Gateway) (networkInfo : NetworkInfoStore)
    (w : World) : World × QueryVars :=
  let upper := JSVal.ofOption networkInfo.currentEpoch
  let lower := mathMax0 (upper.sub 4)
  let vars : QueryVars := { lower := lower, upper := upper }
  match fetchEpochsInRange gw vars w with
  | (w1, some result) =>
      ({ w1 with store := { w1.store with latestEpochsRawData := result.epochs } },
        vars)
  | (w1, none) => (w1, vars)

/-- Action handler browseEpochs: upper is page * perPage, lower is
upper - perPage; executes the query and, if the result is non-null,
replaces browsedEpochsRawData with result.epochs. Returns the updated
world and the variables sent to the gateway. -/
def browseEpochs (gw : Gateway) (page perPage : Int) (w : World) :
    World × QueryVars :=
  let upper := page * perPage
  let vars : QueryVars := { lower := .num (upper - perPage), upper := .num upper }
  match fetchEpochsInRange gw vars w with
  | (w1, some result) =>
      ({ w1 with store := { w1.store with browsedEpochsRawData := result.epochs } },
        vars)
  | (w1, none) => (w1, vars)

/-- Reaction fetchLatestEpochsOnBlockHeightChange: returns without doing
anything when currentEpoch is not a number, the query is executing, the
network-info provider is fetching, or the watermark already equals the
block height; otherwise advances the watermark to the block height and
triggers the fetchLatestEpochs action. The returned Bool records whether
the action was triggered. -/
def fetchLatestEpochsOnBlockHeightChange (networkInfo : NetworkInfoStore)
    (w : World) : World × Bool :=
  if !isNumberJS networkInfo.currentEpoch
      || w.query.isExecuting
      || networkInfo.isFetching
      || (w.store.lastFetchedAtBlockHeight == networkInfo.blockHeight) then
    (w, false)
  else
    ({ w with store := { w.store with lastFetchedAtBlockHeight := networkInfo.blockHeight } },
      true)

/-- Reaction syncLatestEpochWithLatestBlockDate: reads the first latest
block (if any) and the first entry of the epochs of the query result
snapshot (if any); when both exist and their timestamps differ, patches
that epoch record's lastBlockTime field in place to the block's
createdAt. -/
def syncLatestEpochWithLatestBlockDate (blocks : BlocksStore) (w : World) :
    World :=
  let latestBlock : Option Block :=
    match blocks.latestBlocks with
    | [] => none
    | b :: _ => some b
  let epochs : Option RawEpochs := w.query.result.map GetEpochsInRangeQuery.epochs
  let currentEpoch : Option Ref :=
    match epochs with
    | some (e :: _) => e
    | _ => none
  match latestBlock, currentEpoch with
  | some lb, some r =>
      let lastBlockTime := lb.createdAt
      let currentEpochLastBlockTime := (w.heap r).lastBlockTime
      if lastBlockTime ≠ currentEpochLastBlockTime then
        { w with
            heap := fun x =>
              if x = r then { w.heap r with lastBlockTime := lastBlockTime }
              else w.heap x }
      else w
  | _, _ => w

/-- Modelled from the spec: isDefined (src/lib/types is not among the
provided sources) holds of a value that is neither null nor undefined;
filtering a nullable sequence by it keeps exactly the non-null members,
in order. -/
def filterDefined (epochs : RawEpochs) : List Ref :=
  epochs.filterMap id

/-- Private helper transformEpochs:
epochs.filter(isDefined).map(e => epochOverviewTransformer(e, networkInfo.store)).
The epochOverviewTransformer itself (api/transformers is not among the
provided sources) is an arbitrary pure function, taken as the parameter t. -/
def transformEpochs (t : EpochRecord → NetworkInfoStore → α)
    (networkInfo : NetworkInfoStore) (heap : Ref → EpochRecord)
    (epochs : RawEpochs) : List α :=
  (filterDefined epochs).map (fun r => t (heap r) networkInfo)

/-- Computed getter browsedEpochs: transformEpochs applied to the browsed
raw slot. -/
def browsedEpochs (t : EpochRecord → NetworkInfoStore → α)
    (networkInfo : NetworkInfoStore) (w : World) : List α :=
  transformEpochs t networkInfo w.heap w.store.browsedEpochsRawData

/-- Computed getter latestEpochs: transformEpochs applied to the latest
raw slot. -/
def latestEpochs (t : EpochRecord → NetworkInfoStore → α)
    (networkInfo : NetworkInfoStore) (w : World) : List α :=
  transformEpochs t networkInfo w.heap w.store.latestEpochsRawData

/-- The spec's reading of the computed getters: the Transformer applied
to exactly the non-null entries of the sequence, in order, with null
entries silently dropped. Stated as a direct recursion so it can be
compared with the source's filter-then-map definition. -/
def transformEpochsSpec (t : EpochRecord → NetworkInfoStore → α)
    (networkInfo : NetworkInfoStore) (heap : Ref → EpochRecord) :
    RawEpochs → List α
  | [] => []
  | none :: rest => transformEpochsSpec t networkInfo heap rest
  | some r :: rest =>
      t (heap r) networkInfo :: transformEpochsSpec t networkInfo heap rest

/-- shrinkAddress: an address of length at most 34 is returned unchanged;
otherwise the first 17 characters, three dots, and the last 17
characters. -/
def shrinkAddress (address : String) : String :=
  if address.length ≤ 34 then
    address
  else
    String.mk (address.toList.take 17) ++ "..." ++
      String.mk (address.toList.drop (address.length - 17))

/-- Claim C4: for every store state in which the network-info provider
reports currentEpoch = n, fetchLatestEpochs issues a gateway execution
with lower = max(0, n - 4) and upper = n, and on a non-null result
replaces the latest raw-record slot with the returned epoch sequence in
full. -/
theorem C4_fetchLatestEpochs_window (gw : Gateway) (ni : NetworkInfoStore)
    (w : World) (n : Int) (hn : ni.currentEpoch = some n) :
    (fetchLatestEpochs gw ni w).2 = ⟨.num (max 0 (n - 4)), .num n⟩ ∧
    ∀ res, gw ⟨.num (max 0 (n - 4)), .num n⟩ = some res →
      ((fetchLatestEpochs gw ni w).1).store.latestEpochsRawData = res.epochs := by
  unfold fetchLatestEpochs fetchEpochsInRange executeQuery
  rw [hn]
  simp only [JSVal.ofOption, JSVal.sub, mathMax0]
  cases hg : gw ⟨.num (max 0 (n - 4)), .num n⟩ with
  | none => simp [hg]
  | some res => simp [hg]

/-- Witness for C4 at currentEpoch = 10: the requested window is
lower = 6, upper = 10, and the latest slot takes the returned sequence. -/
theorem C4_witness :
    (fetchLatestEpochs (fun _ => some ⟨[some 0, none]⟩) ⟨100, some 10, false⟩
        ⟨fun _ => ⟨0, 0⟩, initialStoreState, ⟨none, false, false, false⟩⟩).2 =
      ⟨.num 6, .num 10⟩ ∧
    ((fetchLatestEpochs (fun _ => some ⟨[some 0, none]⟩) ⟨100, some 10, false⟩
        ⟨fun _ => ⟨0, 0⟩, initialStoreState, ⟨none, false, false, false⟩⟩).1).store.latestEpochsRawData =
      [some 0, none] := by
  have h := C4_fetchLatestEpochs_window (fun _ => some ⟨[some 0, none]⟩)
    ⟨100, some 10, false⟩
    ⟨fun _ => ⟨0, 0⟩, initialStoreState, ⟨none, false, false, false⟩⟩ 10 rfl
  exact ⟨by simpa using h.1, h.2 ⟨[some 0, none]⟩ rfl⟩

/-- Claim C5: for every page and perPage, browseEpochs issues a gateway
execution with lower = page * perPage - perPage and upper =
page * perPage, and on a non-null result replaces the browsed raw-record
slot with the returned epoch sequence in full; no bound check on page is
performed locally (page is an arbitrary integer here, including 0 and
negatives). -/
theorem C5_browseEpochs_window (gw : Gateway) (page perPage : Int) (w : World) :
    (browseEpochs gw page perPage w).2 =
      ⟨.num (page * perPage - perPage), .num (page * perPage)⟩ ∧
    ∀ res, gw ⟨.num (page * perPage - perPage), .num (page * perPage)⟩ = some res →
      ((browseEpochs gw page perPage w).1).store.browsedEpochsRawData = res.epochs := by
  unfold browseEpochs fetchEpochsInRange executeQuery
  cases hg : gw ⟨.num (page * perPage - perPage), .num (page * perPage)⟩ with
  | none => simp [hg]
  | some res => simp [hg]

/-- Witness for C5 at page = 0, perPage = 10 (no local bound check: the
zero page goes straight through as the window lower = -10, upper = 0). -/
theorem C5_witness :
    (browseEpochs (fun _ => some ⟨[some 3]⟩) 0 10
        ⟨fun _ => ⟨0, 0⟩, initialStoreState, ⟨none, false, false, false⟩⟩).2 =
      ⟨.num (-10), .num 0⟩ ∧
    ((browseEpochs (fun _ => some ⟨[some 3]⟩) 0 10
        ⟨fun _ => ⟨0, 0⟩, initialStoreState, ⟨none, false, false, false⟩⟩).1).store.browsedEpochsRawData =
      [some 3] := by
  have h := C5_browseEpochs_window (fun _ => some ⟨[some 3]⟩) 0 10
    ⟨fun _ => ⟨0, 0⟩, initialStoreState, ⟨none, false, false, false⟩⟩
  exact ⟨by simpa using h.1, h.2 ⟨[some 3]⟩ rfl⟩

/-- Claim C6: when the gateway returns null, browseEpochs (respectively
fetchLatestEpochs) leaves the store's observable fields — both raw-record
slots and the watermark — exactly as they were: no overwrite, and no
error flag or retry is recorded by the store. -/
theorem C6_null_result_leaves_store (gw : Gateway) (ni : NetworkInfoStore)
    (page perPage : Int) (w : World)
    (hb : gw ⟨.num (page * perPage - perPage), .num (page * perPage)⟩ = none)
    (hl : gw ⟨mathMax0 ((JSVal.ofOption ni.currentEpoch).sub 4),
        JSVal.ofOption ni.currentEpoch⟩ = none) :
    ((browseEpochs gw page perPage w).1).store = w.store ∧
    ((fetchLatestEpochs gw ni w).1).store = w.store := by
  constructor
  · unfold browseEpochs fetchEpochsInRange executeQuery
    simp [hb]
  · unfold fetchLatestEpochs fetchEpochsInRange executeQuery
    simp [hl]

/-- Witness for C6: an always-null gateway leaves a non-trivial store
state untouched through both handlers. -/
theorem C6_witness :
    ((browseEpochs (fun _ => none) 2 10
        ⟨fun _ => ⟨0, 0⟩, ⟨[some 5], [some 7], 42⟩, ⟨none, true, false, false⟩⟩).1).store =
      ⟨[some 5], [some 7], 42⟩ ∧
    ((fetchLatestEpochs (fun _ => none) ⟨100, some 10, false⟩
        ⟨fun _ => ⟨0, 0⟩, ⟨[some 5], [some 7], 42⟩, ⟨none, true, false, false⟩⟩).1).store =
      ⟨[some 5], [some 7], 42⟩ :=
  C6_null_result_leaves_store (fun _ => none) ⟨100, some 10, false⟩ 2 10
    ⟨fun _ => ⟨0, 0⟩, ⟨[some 5], [some 7], 42⟩, ⟨none, true, false, false⟩⟩ rfl rfl

/-- Claim C9: fetchLatestEpochs has no isNumber guard: with currentEpoch
undefined it still executes the gateway query, with upper = undefined and
lower = Math.max(0, undefined - 4) = NaN; the isNumber guard lives only
in the polling reaction, which skips (triggers nothing) for the same
network-info state even when nothing is in flight. -/
theorem C9_fetch_without_number_guard (gw : Gateway) (ni : NetworkInfoStore)
    (w : World) (hu : ni.currentEpoch = none) :
    (fetchLatestEpochs gw ni w).2 = ⟨.nan, .undefined⟩ ∧
    ((fetchLatestEpochs gw ni w).1).query.result = gw ⟨.nan, .undefined⟩ ∧
    ((fetchLatestEpochs gw ni w).1).query.hasBeenExecutedAtLeastOnce = true ∧
    ∀ w2, w2.query.isExecuting = false → ni.isFetching = false →
      (fetchLatestEpochsOnBlockHeightChange ni w2).2 = false := by
  unfold fetchLatestEpochs fetchEpochsInRange executeQuery
  rw [hu]
  simp only [JSVal.ofOption, JSVal.sub, mathMax0]
  refine ⟨?_, ?_, ?_, ?_⟩
  · cases hg : gw ⟨.nan, .undefined⟩ with
    | none => simp [hg]
    | some res => simp [hg]
  · cases hg : gw ⟨.nan, .undefined⟩ with
    | none => simp [hg]
    | some res => simp [hg]
  · cases hg : gw ⟨.nan, .undefined⟩ with
    | none => simp [hg]
    | some res => simp [hg]
  · intro w2 _ _
    unfold fetchLatestEpochsOnBlockHeightChange
    rw [hu]
    simp [isNumberJS]

/-- Witness for C9: with currentEpoch undefined the handler sends
lower = NaN, upper = undefined and records the gateway response, while
the reaction triggers nothing. -/
theorem C9_witness :
    (fetchLatestEpochs (fun _ => some ⟨[some 1]⟩) ⟨100, none, false⟩
        ⟨fun _ => ⟨0, 0⟩, initialStoreState, ⟨none, false, false, false⟩⟩).2 =
      ⟨.nan, .undefined⟩ ∧
    ((fetchLatestEpochs (fun _ => some ⟨[some 1]⟩) ⟨100, none, false⟩
        ⟨fun _ => ⟨0, 0⟩, initialStoreState, ⟨none, false, false, false⟩⟩).1).query.result =
      some ⟨[some 1]⟩ ∧
    (fetchLatestEpochsOnBlockHeightChange ⟨100, none, false⟩
        ⟨fun _ => ⟨0, 0⟩, initialStoreState, ⟨none, false, false, false⟩⟩).2 = false := by
  have h := C9_fetch_without_number_guard (fun _ => some ⟨[some 1]⟩)
    ⟨100, none, false⟩
    ⟨fun _ => ⟨0, 0⟩, initialStoreState, ⟨none, false, false, false⟩⟩ rfl
  exact ⟨h.1, h.2.1, h.2.2.2 ⟨fun _ => ⟨0, 0⟩, initialStoreState, ⟨none, false, false, false⟩⟩ rfl rfl⟩

/-- Counterexample to claim C2 as stated: block height is 5, the
watermark is 0 (so the height changed from 0 to 5), no fetch is in flight
(the query is not executing and network-info is not fetching), yet the
evaluation triggers no fetch and leaves the watermark at 0, because
currentEpoch is undefined — a guard the claim does not mention. -/
theorem C2_counterexample :
    (fetchLatestEpochsOnBlockHeightChange ⟨5, none, false⟩
        ⟨fun _ => ⟨0, 0⟩, initialStoreState, ⟨none, false, false, false⟩⟩).2 = false ∧
    ((fetchLatestEpochsOnBlockHeightChange ⟨5, none, false⟩
        ⟨fun _ => ⟨0, 0⟩, initialStoreState, ⟨none, false, false, false⟩⟩).1).store.lastFetchedAtBlockHeight = 0 ∧
    ¬ ((fetchLatestEpochsOnBlockHeightChange ⟨5, none, false⟩
        ⟨fun _ => ⟨0, 0⟩, initialStoreState, ⟨none, false, false, false⟩⟩).2 = true ∧
      ((fetchLatestEpochsOnBlockHeightChange ⟨5, none, false⟩
        ⟨fun _ => ⟨0, 0⟩, initialStoreState, ⟨none, false, false, false⟩⟩).1).store.lastFetchedAtBlockHeight = 5) := by
  decide

/-- Claim C2 as amended: when additionally currentEpoch is a known number
and the network-info provider is not itself fetching, an evaluation with
watermark h1, observed block height h2 and h1 different from h2 triggers
exactly one fetch and advances the watermark to h2 in the state the
evaluation itself returns — before any fetch resolves, since resolving a
fetch (fetchLatestEpochs completing) never writes the watermark; the
watermark is initialized to 0 and an evaluation that does not trigger
changes nothing. -/
theorem C2_watermark_before_fetch (ni : NetworkInfoStore) (w : World)
    (h1 h2 n : Int)
    (hn : ni.currentEpoch = some n)
    (hexec : w.query.isExecuting = false)
    (hfetch : ni.isFetching = false)
    (hw : w.store.lastFetchedAtBlockHeight = h1)
    (hh : ni.blockHeight = h2)
    (hne : h1 ≠ h2) :
    (fetchLatestEpochsOnBlockHeightChange ni w).2 = true ∧
    ((fetchLatestEpochsOnBlockHeightChange ni w).1).store.lastFetchedAtBlockHeight = h2 ∧
    ((fetchLatestEpochsOnBlockHeightChange ni w).1).store.browsedEpochsRawData =
      w.store.browsedEpochsRawData ∧
    ((fetchLatestEpochsOnBlockHeightChange ni w).1).store.latestEpochsRawData =
      w.store.latestEpochsRawData ∧
    initialStoreState.lastFetchedAtBlockHeight = 0 ∧
    (∀ gw ni2 w2, ((fetchLatestEpochs gw ni2 w2).1).store.lastFetchedAtBlockHeight =
      w2.store.lastFetchedAtBlockHeight) ∧
    (∀ ni2 w2, (fetchLatestEpochsOnBlockHeightChange ni2 w2).2 = false →
      (fetchLatestEpochsOnBlockHeightChange ni2 w2).1 = w2) := by
  have hguard : (!isNumberJS ni.currentEpoch
      || w.query.isExecuting
      || ni.isFetching
      || (w.store.lastFetchedAtBlockHeight == ni.blockHeight)) = false := by
    rw [hn, hexec, hfetch, hw, hh]
    simp [isNumberJS, hne]
  refine ⟨?_, ?_, ?_, ?_, rfl, ?_, ?_⟩
  · unfold fetchLatestEpochsOnBlockHeightChange
    rw [hguard]
    rfl
  · unfold fetchLatestEpochsOnBlockHeightChange
    rw [hguard]
    simpa using hh
  · unfold fetchLatestEpochsOnBlockHeightChange
    rw [hguard]
    rfl
  · unfold fetchLatestEpochsOnBlockHeightChange
    rw [hguard]
    rfl
  · intro gw ni2 w2
    unfold fetchLatestEpochs fetchEpochsInRange executeQuery
    cases hg : gw ⟨mathMax0 ((JSVal.ofOption ni2.currentEpoch).sub 4),
        JSVal.ofOption ni2.currentEpoch⟩ with
    | none => simp [hg]
    | some res => simp [hg]
  · intro ni2 w2 hfalse
    unfold fetchLatestEpochsOnBlockHeightChange at hfalse ⊢
    by_cases hc : (!isNumberJS ni2.currentEpoch
        || w2.query.isExecuting
        || ni2.isFetching
        || (w2.store.lastFetchedAtBlockHeight == ni2.blockHeight)) = true
    · rw [if_pos hc]
    · rw [if_neg hc] at hfalse
      simp at hfalse

/-- Witness for the amended C2: watermark 0, block height 7, current
epoch 3, nothing in flight — the evaluation triggers and the returned
state has watermark 7. -/
theorem C2_witness :
    (fetchLatestEpochsOnBlockHeightChange ⟨7, some 3, false⟩
        ⟨fun _ => ⟨0, 0⟩, initialStoreState, ⟨none, false, false, false⟩⟩).2 = true ∧
    ((fetchLatestEpochsOnBlockHeightChange ⟨7, some 3, false⟩
        ⟨fun _ => ⟨0, 0⟩, initialStoreState, ⟨none, false, false, false⟩⟩).1).store.lastFetchedAtBlockHeight = 7 := by
  have h := C2_watermark_before_fetch ⟨7, some 3, false⟩
    ⟨fun _ => ⟨0, 0⟩, initialStoreState, ⟨none, false, false, false⟩⟩
    0 7 3 rfl rfl rfl rfl rfl (by decide)
  exact ⟨h.1, h.2.1⟩

/-- Claim C3: two evaluations of the reaction with the same observed
block height (whatever else changed) trigger at most one fetch, the
second evaluation starting from the store the first produced; and when
the first evaluation did trigger, the second finds the watermark equal to
the current block height and triggers nothing. -/
theorem C3_idempotent_on_same_height (ni1 ni2 : NetworkInfoStore)
    (w1 w2 : World)
    (hb : ni1.blockHeight = ni2.blockHeight)
    (hst : w2.store = ((fetchLatestEpochsOnBlockHeightChange ni1 w1).1).store) :
    ¬ ((fetchLatestEpochsOnBlockHeightChange ni1 w1).2 = true ∧
      (fetchLatestEpochsOnBlockHeightChange ni2 w2).2 = true) ∧
    ((fetchLatestEpochsOnBlockHeightChange ni1 w1).2 = true →
      w2.store.lastFetchedAtBlockHeight = ni2.blockHeight ∧
      (fetchLatestEpochsOnBlockHeightChange ni2 w2).2 = false) := by
  by_cases hc : (!isNumberJS ni1.currentEpoch
      || w1.query.isExecuting
      || ni1.isFetching
      || (w1.store.lastFetchedAtBlockHeight == ni1.blockHeight)) = true
  · have h1 : (fetchLatestEpochsOnBlockHeightChange ni1 w1).2 = false := by
      unfold fetchLatestEpochsOnBlockHeightChange
      rw [if_pos hc]
    constructor
    · rintro ⟨ht, -⟩
      rw [h1] at ht
      exact Bool.false_ne_true ht
    · intro ht
      rw [h1] at ht
      exact absurd ht Bool.false_ne_true
  · have hmark : w2.store.lastFetchedAtBlockHeight = ni2.blockHeight := by
      rw [hst]
      unfold fetchLatestEpochsOnBlockHeightChange
      rw [if_neg hc]
      simpa using hb
    have h2 : (fetchLatestEpochsOnBlockHeightChange ni2 w2).2 = false := by
      unfold fetchLatestEpochsOnBlockHeightChange
      have : (w2.store.lastFetchedAtBlockHeight == ni2.blockHeight) = true := by
        simp [hmark]
      rw [if_pos (by simp [this])]
    constructor
    · rintro ⟨-, ht⟩
      rw [h2] at ht
      exact Bool.false_ne_true ht
    · intro _
      exact ⟨hmark, h2⟩

/-- Witness for C3: a first evaluation that triggers (height 5, epoch 2,
watermark 0), followed by a second evaluation at the same height on the
resulting store: the second finds the watermark at 5 and triggers
nothing. -/
theorem C3_witness :
    ¬ ((fetchLatestEpochsOnBlockHeightChange ⟨5, some 2, false⟩
        ⟨fun _ => ⟨0, 0⟩, initialStoreState, ⟨none, false, false, false⟩⟩).2 = true ∧
      (fetchLatestEpochsOnBlockHeightChange ⟨5, some 2, false⟩
        ⟨fun _ => ⟨0, 0⟩, ⟨[], [], 5⟩, ⟨none, false, false, false⟩⟩).2 = true) ∧
    ((fetchLatestEpochsOnBlockHeightChange ⟨5, some 2, false⟩
        ⟨fun _ => ⟨0, 0⟩, initialStoreState, ⟨none, false, false, false⟩⟩).2 = true →
      (⟨fun _ => ⟨0, 0⟩, ⟨[], [], 5⟩, ⟨none, false, false, false⟩⟩ : World).store.lastFetchedAtBlockHeight =
        (⟨5, some 2, false⟩ : NetworkInfoStore).blockHeight ∧
      (fetchLatestEpochsOnBlockHeightChange ⟨5, some 2, false⟩
        ⟨fun _ => ⟨0, 0⟩, ⟨[], [], 5⟩, ⟨none, false, false, false⟩⟩).2 = false) :=
  C3_idempotent_on_same_height ⟨5, some 2, false⟩ ⟨5, some 2, false⟩
    ⟨fun _ => ⟨0, 0⟩, initialStoreState, ⟨none, false, false, false⟩⟩
    ⟨fun _ => ⟨0, 0⟩, ⟨[], [], 5⟩, ⟨none, false, false, false⟩⟩
    rfl (by decide)

/-- Counterexample to claim C1 as stated: the latest block has
createdAt = 200 and the first entry of the latest-epochs raw sequence is
the record at reference 0 with lastBlockTime = 100, different from 200;
but the query result snapshot holds a different (browsed) sequence whose
first entry is the record at reference 1, so the reaction patches that
record instead and the latest-epochs first entry keeps lastBlockTime =
100 instead of becoming 200. -/
theorem C1_counterexample :
    (⟨fun x => if x = 0 then ⟨10, 100⟩ else ⟨9, 100⟩, ⟨[some 1], [some 0], 0⟩,
        ⟨some ⟨[some 1]⟩, true, false, false⟩⟩ : World).store.latestEpochsRawData =
      [some 0] ∧
    ((⟨fun x => if x = 0 then ⟨10, 100⟩ else ⟨9, 100⟩, ⟨[some 1], [some 0], 0⟩,
        ⟨some ⟨[some 1]⟩, true, false, false⟩⟩ : World).heap 0).lastBlockTime = 100 ∧
    ((syncLatestEpochWithLatestBlockDate ⟨[⟨200⟩]⟩
        ⟨fun x => if x = 0 then ⟨10, 100⟩ else ⟨9, 100⟩, ⟨[some 1], [some 0], 0⟩,
          ⟨some ⟨[some 1]⟩, true, false, false⟩⟩).heap 0).lastBlockTime = 100 ∧
    ¬ ((syncLatestEpochWithLatestBlockDate ⟨[⟨200⟩]⟩
        ⟨fun x => if x = 0 then ⟨10, 100⟩ else ⟨9, 100⟩, ⟨[some 1], [some 0], 0⟩,
          ⟨some ⟨[some 1]⟩, true, false, false⟩⟩).heap 0).lastBlockTime = 200 := by
  decide

/-- Claim C1 as amended: the reaction patches the first entry of the
query result snapshot; whenever that snapshot holds (aliases) the
latest-epochs raw sequence — the state a successful latest fetch leaves
behind — and the most recent block exists with createdAt = t and the
first latest entry exists, after the reaction that entry's lastBlockTime
equals t (its epoch number untouched, the store slots untouched). -/
theorem C1_sync_patches_aliased_latest (blocks : BlocksStore) (w : World)
    (b : Block) (bs : List Block) (r : Ref) (rest : RawEpochs)
    (hq : w.query.result = some ⟨w.store.latestEpochsRawData⟩)
    (hl : w.store.latestEpochsRawData = some r :: rest)
    (hb : blocks.latestBlocks = b :: bs) :
    ((syncLatestEpochWithLatestBlockDate blocks w).heap r).lastBlockTime = b.createdAt ∧
    ((syncLatestEpochWithLatestBlockDate blocks w).heap r).epochNumber =
      (w.heap r).epochNumber ∧
    (syncLatestEpochWithLatestBlockDate blocks w).store = w.store := by
  have hmain : syncLatestEpochWithLatestBlockDate blocks w =
      if b.createdAt ≠ (w.heap r).lastBlockTime then
        { w with
            heap := fun x =>
              if x = r then { w.heap r with lastBlockTime := b.createdAt }
              else w.heap x }
      else w := by
    unfold syncLatestEpochWithLatestBlockDate
    rw [hb, hq, hl]
    simp
  rw [hmain]
  by_cases hcase : b.createdAt = (w.heap r).lastBlockTime
  · rw [if_neg (not_not_intro hcase)]
    exact ⟨hcase.symm, rfl, rfl⟩
  · rw [if_pos hcase]
    refine ⟨?_, ?_, rfl⟩
    · simp
    · simp

/-- Witness for the amended C1: latest slot and snapshot alias the same
sequence with first entry at reference 0 (lastBlockTime 100), latest
block createdAt 200 — after the reaction the entry holds 200. -/
theorem C1_witness :
    ((syncLatestEpochWithLatestBlockDate ⟨[⟨200⟩]⟩
        ⟨fun _ => ⟨10, 100⟩, ⟨[], [some 0], 0⟩,
          ⟨some ⟨[some 0]⟩, true, false, false⟩⟩).heap 0).lastBlockTime = 200 :=
  (C1_sync_patches_aliased_latest ⟨[⟨200⟩]⟩
    ⟨fun _ => ⟨10, 100⟩, ⟨[], [some 0], 0⟩, ⟨some ⟨[some 0]⟩, true, false, false⟩⟩
    ⟨200⟩ [] 0 [] rfl rfl rfl).1

/-- Claim C8: the reaction takes its patch target from the query result
snapshot, not from the stored latest-epochs slot: when browseEpochs was
the query executed most recently (the snapshot holds the browsed
sequence), the reaction sets the first browsed entry's lastBlockTime to
the latest block's createdAt, changes no other heap cell and no store
field — so entries of latestEpochsRawData change only insofar as they
alias that record. -/
theorem C8_sync_targets_result_snapshot (blocks : BlocksStore) (w : World)
    (b : Block) (bs : List Block) (r : Ref) (rest : RawEpochs)
    (hq : w.query.result = some ⟨w.store.browsedEpochsRawData⟩)
    (hbr : w.store.browsedEpochsRawData = some r :: rest)
    (hb : blocks.latestBlocks = b :: bs) :
    ((syncLatestEpochWithLatestBlockDate blocks w).heap r).lastBlockTime = b.createdAt ∧
    (∀ x, x ≠ r → (syncLatestEpochWithLatestBlockDate blocks w).heap x = w.heap x) ∧
    (syncLatestEpochWithLatestBlockDate blocks w).store = w.store ∧
    (syncLatestEpochWithLatestBlockDate blocks w).query = w.query := by
  have hmain : syncLatestEpochWithLatestBlockDate blocks w =
      if b.createdAt ≠ (w.heap r).lastBlockTime then
        { w with
            heap := fun x =>
              if x = r then { w.heap r with lastBlockTime := b.createdAt }
              else w.heap x }
      else w := by
    unfold syncLatestEpochWithLatestBlockDate
    rw [hb, hq, hbr]
    simp
  rw [hmain]
  by_cases hcase : b.createdAt = (w.heap r).lastBlockTime
  · rw [if_neg (not_not_intro hcase)]
    exact ⟨hcase.symm, fun _ _ => rfl, rfl, rfl⟩
  · rw [if_pos hcase]
    refine ⟨by simp, ?_, rfl, rfl⟩
    intro x hx
    simp [hx]

/-- Witness for C8: the snapshot holds the browsed sequence (first entry
reference 1), the latest slot holds reference 0; the reaction patches the
record at reference 1 to the block's createdAt 200, leaves reference 0
alone, and leaves the store fields alone. -/
theorem C8_witness :
    ((syncLatestEpochWithLatestBlockDate ⟨[⟨200⟩]⟩
        ⟨fun x => if x = 0 then ⟨10, 100⟩ else ⟨9, 100⟩, ⟨[some 1], [some 0], 0⟩,
          ⟨some ⟨[some 1]⟩, true, false, false⟩⟩).heap 1).lastBlockTime = 200 ∧
    (syncLatestEpochWithLatestBlockDate ⟨[⟨200⟩]⟩
        ⟨fun x => if x = 0 then ⟨10, 100⟩ else ⟨9, 100⟩, ⟨[some 1], [some 0], 0⟩,
          ⟨some ⟨[some 1]⟩, true, false, false⟩⟩).heap 0 =
      (⟨fun x => if x = 0 then ⟨10, 100⟩ else ⟨9, 100⟩, ⟨[some 1], [some 0], 0⟩,
          ⟨some ⟨[some 1]⟩, true, false, false⟩⟩ : World).heap 0 ∧
    (syncLatestEpochWithLatestBlockDate ⟨[⟨200⟩]⟩
        ⟨fun x => if x = 0 then ⟨10, 100⟩ else ⟨9, 100⟩, ⟨[some 1], [some 0], 0⟩,
          ⟨some ⟨[some 1]⟩, true, false, false⟩⟩).store =
      ⟨[some 1], [some 0], 0⟩ := by
  have h := C8_sync_targets_result_snapshot ⟨[⟨200⟩]⟩
    ⟨fun x => if x = 0 then ⟨10, 100⟩ else ⟨9, 100⟩, ⟨[some 1], [some 0], 0⟩,
      ⟨some ⟨[some 1]⟩, true, false, false⟩⟩
    ⟨200⟩ [] 1 [] rfl rfl rfl
  exact ⟨h.1, h.2.1 0 (by decide), h.2.2.1⟩

/-- Claim C7: for every raw epoch sequence, possibly containing null
members, the computed getters browsedEpochs and latestEpochs are total
(defined, no error branch) and equal the Transformer applied to exactly
the non-null entries in order, null entries silently dropped — stated
against the independent recursion transformEpochsSpec written from the
spec's words. -/
theorem C7_getters_drop_null_entries (t : EpochRecord → NetworkInfoStore → α)
    (ni : NetworkInfoStore) (w : World) :
    browsedEpochs t ni w =
      transformEpochsSpec t ni w.heap w.store.browsedEpochsRawData ∧
    latestEpochs t ni w =
      transformEpochsSpec t ni w.heap w.store.latestEpochsRawData := by
  have key : ∀ epochs : RawEpochs,
      transformEpochs t ni w.heap epochs = transformEpochsSpec t ni w.heap epochs := by
    intro epochs
    induction epochs with
    | nil => rfl
    | cons e rest ih =>
      cases e with
      | none =>
          simpa [transformEpochs, filterDefined, transformEpochsSpec,
            List.filterMap_cons] using ih
      | some r =>
          simp only [transformEpochs, filterDefined, transformEpochsSpec,
            List.filterMap_cons, id, List.map_cons] at ih ⊢
          rw [ih]
  exact ⟨key _, key _⟩

/-- Claim C10: shrinkAddress returns a string of length at most 34
unchanged; a longer string becomes the first 17 characters, three dots,
then the last 17 characters — exactly 37 characters, so inputs of length
35 to 37 come out no shorter than they went in. -/
theorem C10_shrinkAddress_spec (address : String) :
    (address.length ≤ 34 → shrinkAddress address = address) ∧
    (34 < address.length →
      (shrinkAddress address).toList =
        address.toList.take 17 ++ "...".toList ++
          address.toList.drop (address.length - 17) ∧
      (shrinkAddress address).length = 37 ∧
      (address.length ≤ 37 → address.length ≤ (shrinkAddress address).length)) := by
  constructor
  · intro h
    unfold shrinkAddress
    rw [if_pos h]
  · intro h
    have hne : ¬ address.length ≤ 34 := not_le.mpr h
    have hlist : address.length = address.toList.length := rfl
    have hshrink : (shrinkAddress address).toList =
        address.toList.take 17 ++ "...".toList ++
          address.toList.drop (address.length - 17) := by
      unfold shrinkAddress
      rw [if_neg hne]
      rfl
    have hlen : (shrinkAddress address).length = 37 := by
      have heq : (shrinkAddress address).length = (shrinkAddress address).toList.length := rfl
      rw [heq, hshrink]
      simp only [List.length_append, List.length_take, List.length_drop]
      have hdots : ("...".toList).length = 3 := rfl
      rw [hdots]
      omega
    refine ⟨hshrink, hlen, ?_⟩
    intro h37
    rw [hlen]
    exact h37

/-- Witness for C10: a 3-character address is unchanged; a 35-character
address shrinks to exactly 37 characters. -/
theorem C10_witness :
    shrinkAddress "abc" = "abc" ∧
    (shrinkAddress "01234567890123456789012345678901234").length = 37 := by
  have h1 := C10_shrinkAddress_spec "abc"
  have h2 := C10_shrinkAddress_spec "01234567890123456789012345678901234"
  exact ⟨h1.1 (by decide), (h2.2 (by decide)).2.1⟩

end EpochsStore
